import Mathlib

/-!
Shallow embedding of the coil nesting and cost engine of
`src/server.js` (ProCoil Enterprise).

All JavaScript numbers that the engine manipulates are modelled as
rationals (`ℚ`); the inputs and constants involved are exact decimals
and every arithmetic operation the engine performs (addition,
multiplication, `Math.floor`, `Math.ceil`, division) is exact on them,
so `ℚ` reproduces the JS semantics on the inputs of interest.  The
`.toFixed(...)` string formatting applied to output fields is display
formatting; the embedded engine carries the underlying numeric values.
-/

namespace ProCoil

/-- An order line as consumed by the `POST /api/optimize/coil` handler.
`color` is the raw field; the handler substitutes `"UNSPECIFIED"` for a
missing or empty color (the JS `item.color` short-circuit), which we
model with the empty string standing for an absent field. -/
structure OrderLine where
  productId : String
  color : String
  quantity : ℚ
  length : ℚ
  width : ℚ
deriving Repr, DecidableEq

/-- The color defaulting step of the grouping loop: an absent or empty
color field becomes the sentinel `"UNSPECIFIED"`. -/
def lineColor (item : OrderLine) : String :=
  if item.color = "" then "UNSPECIFIED" else item.color

/-- The business configuration object `BUSINESS_CONFIG` of the source. -/
structure PricingConfig where
  marginPercent : ℚ
  laborPerFoot : ℚ
deriving Repr, DecidableEq

structure BusinessConfig where
  scrapFactor : ℚ
  standardRollLength : ℚ
  pricing : PricingConfig
deriving Repr, DecidableEq

def BUSINESS_CONFIG : BusinessConfig :=
  { scrapFactor := 5 / 100
    standardRollLength := 100
    pricing := { marginPercent := 30 / 100, laborPerFoot := 1 / 2 } }

/-- `PRODUCT_CATEGORIES.colors` from the source: (code, name) pairs, in
source order. -/
def colorTable : List (String × String) :=
  [ ("AG", "Ash Gray"), ("ARW", "Arctic White"), ("AW", "Alamo White")
  , ("B", "Brown"), ("BER", "Berry"), ("BK", "Black"), ("BR", "Brick Red")
  , ("BS", "Burnished Slate"), ("BUR", "Burgundy"), ("BW", "Bone White")
  , ("OB", "Ocean Blue"), ("CH", "Charcoal"), ("EG", "Evergreen")
  , ("GB", "Gallery Blue"), ("GAL", "Galvalume") ]

/-- `getColorCode(colorName)`: reverse lookup of the color's short code
from the color table, case-insensitively; `"CUSTOM"` when no entry
matches. -/
def getColorCode (colorName : String) : String :=
  match colorTable.find? (fun p => p.2.toLower = colorName.toLower) with
  | some p => p.1
  | none => "CUSTOM"

/-- `selectCoilProduct(color, width)`: compose the width-derived product
stem, the fixed gauge literal `"29"`, and the resolved color code. -/
def selectCoilProduct (color : String) (width : ℚ) : String :=
  let colorCode := getColorCode color
  let widthStem := if width = 20 then "CO20" else "CO43875"
  let gauge := "29"
  widthStem ++ gauge ++ colorCode

/-- A cutting pattern as pushed onto `patterns` by the per-line loop of
the optimize handler.  The `fullWidth` constructor carries the fields of
the Full Width object, `nested` those of the Nested Trim object
(`layoutEff` is the numeric value `item.width * piecesPerRow / coilWidth`
that the source formats into the `efficiency` string). -/
inductive Pattern where
  | fullWidth (product : String) (quantity : ℚ) (lengthEach : ℚ) (totalFeet : ℚ)
  | nested (product : String) (quantity : ℚ) (width : ℚ) (piecesPerRow : ℤ)
      (rowsNeeded : ℤ) (lengthEach : ℚ) (totalFeet : ℚ) (layoutEff : ℚ)
deriving Repr, DecidableEq

/-- The `totalFeet` field of either pattern shape. -/
def Pattern.totalFeet : Pattern → ℚ
  | .fullWidth _ _ _ t => t
  | .nested _ _ _ _ _ _ t _ => t

/-- The `piecesPerRow` field when the pattern is Nested. -/
def Pattern.piecesPerRowOf : Pattern → Option ℤ
  | .nested _ _ _ p _ _ _ _ => some p
  | _ => none

/-- The `rowsNeeded` field when the pattern is Nested. -/
def Pattern.rowsNeededOf : Pattern → Option ℤ
  | .nested _ _ _ _ r _ _ _ => some r
  | _ => none

/-- The `width` field when the pattern is Nested. -/
def Pattern.widthOf : Pattern → Option ℚ
  | .nested _ _ w _ _ _ _ _ => some w
  | _ => none

/-- The per-line body of the optimize loop:
if `item.width >= coilWidth` a Full Width pattern with
`totalFeet = quantity * length`; otherwise a Nested Trim pattern with
`piecesPerRow = Math.floor(coilWidth / item.width)`,
`rowsNeeded = Math.ceil(item.quantity / piecesPerRow)` and
`totalFeet = rowsNeeded * item.length`.
(JS note: when `piecesPerRow` is `0` the JS division yields `Infinity`;
`ℚ` has no infinity and Lean's division by zero yields `0`.  No theorem
below relies on the `rowsNeeded` value in that degenerate situation,
only on the control flow, which is identical.) -/
def makePattern (coilWidth : ℚ) (item : OrderLine) : Pattern :=
  if item.width ≥ coilWidth then
    .fullWidth item.productId item.quantity item.length
      (item.quantity * item.length)
  else
    let piecesPerRow : ℤ := ⌊coilWidth / item.width⌋
    let rowsNeeded : ℤ := ⌈item.quantity / (piecesPerRow : ℚ)⌉
    .nested item.productId item.quantity item.width piecesPerRow rowsNeeded
      item.length ((rowsNeeded : ℚ) * item.length)
      (item.width * (piecesPerRow : ℚ) / coilWidth)

/-- The per-color optimization record built by the handler (the value
stored at `optimization[color]`), minus the echoed `items` array. -/
structure ColorResult where
  patterns : List Pattern
  baseLinearFeet : ℚ
  scrapFeet : ℚ
  totalLinearFeet : ℚ
  coilsNeeded : ℤ
  materialEff : ℚ
  recommendedCoil : String
deriving Repr, DecidableEq

/-- Per-color stage of the handler: build the line patterns, accumulate
`linearFeet`, apply the scrap factor, derive coils needed and the
numeric efficiency ratio, and attach the recommended coil product. -/
def optimizeColor (coilWidth : ℚ) (color : String)
    (colorItems : List OrderLine) : ColorResult :=
  let patterns := colorItems.map (makePattern coilWidth)
  let linearFeet := (patterns.map Pattern.totalFeet).sum
  let scrapAmount := linearFeet * BUSINESS_CONFIG.scrapFactor
  let totalNeeded := linearFeet + scrapAmount
  { patterns := patterns
    baseLinearFeet := linearFeet
    scrapFeet := scrapAmount
    totalLinearFeet := totalNeeded
    coilsNeeded := ⌈totalNeeded / BUSINESS_CONFIG.standardRollLength⌉
    materialEff := linearFeet / totalNeeded
    recommendedCoil := selectCoilProduct color coilWidth }

/-- Insertion-ordered grouping: append `item` to its color's group, or
open a new group at the end (the behaviour of the `colorGroups` object
together with `Object.keys` insertion order). -/
def insertByColor (groups : List (String × List OrderLine)) (c : String)
    (item : OrderLine) : List (String × List OrderLine) :=
  match groups with
  | [] => [(c, [item])]
  | (c0, xs) :: rest =>
      if c0 = c then (c0, xs ++ [item]) :: rest
      else (c0, xs) :: insertByColor rest c item

/-- The grouping loop `items.forEach(...)` of the handler. -/
def groupByColor (items : List OrderLine) : List (String × List OrderLine) :=
  items.foldl (fun gs item => insertByColor gs (lineColor item) item) []

/-- The global pricing block of the handler, a function of the
scrap-inflated global total alone (`3.85` is the inline base cost per
foot of the source). -/
structure Pricing where
  materialCost : ℚ
  laborCost : ℚ
  totalCost : ℚ
  sellPrice : ℚ
  margin : ℚ
deriving Repr, DecidableEq

def computePricing (totalWithScrap : ℚ) : Pricing :=
  let materialCost := totalWithScrap * (385 / 100)
  let laborCost := totalWithScrap * BUSINESS_CONFIG.pricing.laborPerFoot
  let totalCost := materialCost + laborCost
  let sellPrice := totalCost * (1 + BUSINESS_CONFIG.pricing.marginPercent)
  { materialCost := materialCost
    laborCost := laborCost
    totalCost := totalCost
    sellPrice := sellPrice
    margin := sellPrice - totalCost }

/-- The `summary` object of the response (numeric fields). -/
structure Summary where
  totalLinearFeet : ℚ
  scrapFeet : ℚ
  totalWithScrap : ℚ
  totalCoilsNeeded : ℤ
  coilWidth : ℚ
  pricing : Pricing
deriving Repr, DecidableEq

/-- The full optimize response body: the per-color breakdown in group
insertion order and the global summary. -/
structure OptimizeResult where
  optimization : List (String × ColorResult)
  summary : Summary
deriving Repr, DecidableEq

/-- The only error the handler signals before computing: the
HTTP 400 "No items provided" response for a missing or empty item list. -/
inductive OptimizeError where
  | invalidInput
deriving Repr, DecidableEq

/-- The `POST /api/optimize/coil` handler body: reject an empty item
list, group by color, optimize each group, accumulate the global totals
and price them. -/
def optimize (items : List OrderLine) (coilWidth : ℚ) :
    Except OptimizeError OptimizeResult :=
  if items.isEmpty then .error .invalidInput
  else
    let groups := groupByColor items
    let colorResults := groups.map (fun g => (g.1, optimizeColor coilWidth g.1 g.2))
    let totalLinearFeet := (colorResults.map (fun g => g.2.baseLinearFeet)).sum
    let totalWithScrap := (colorResults.map (fun g => g.2.totalLinearFeet)).sum
    .ok
      { optimization := colorResults
        summary :=
          { totalLinearFeet := totalLinearFeet
            scrapFeet := totalWithScrap - totalLinearFeet
            totalWithScrap := totalWithScrap
            totalCoilsNeeded :=
              ⌈totalWithScrap / BUSINESS_CONFIG.standardRollLength⌉
            coilWidth := coilWidth
            pricing := computePricing totalWithScrap } }

/-! ### Concrete fixtures

Order lines taken from the scenarios of the specification and from the
sample data of the `/api/test/optimize` endpoint, together with the
fully evaluated optimizer outputs they produce. -/

set_option maxRecDepth 10000

/-- Two pricing blocks with equal fields are equal. -/
theorem pricingExt {p q : Pricing}
    (h1 : p.materialCost = q.materialCost) (h2 : p.laborCost = q.laborCost)
    (h3 : p.totalCost = q.totalCost) (h4 : p.sellPrice = q.sellPrice)
    (h5 : p.margin = q.margin) : p = q := by
  cases p
  cases q
  simp_all

/-- Two summaries with equal fields are equal. -/
theorem summaryExt {s t : Summary}
    (h1 : s.totalLinearFeet = t.totalLinearFeet)
    (h2 : s.scrapFeet = t.scrapFeet)
    (h3 : s.totalWithScrap = t.totalWithScrap)
    (h4 : s.totalCoilsNeeded = t.totalCoilsNeeded)
    (h5 : s.coilWidth = t.coilWidth)
    (h6 : s.pricing = t.pricing) : s = t := by
  cases s
  cases t
  simp_all

/-- Two handler responses with equal components are equal. -/
theorem optimizeResultExt {r t : OptimizeResult}
    (h1 : r.optimization = t.optimization)
    (h2 : r.summary = t.summary) : r = t := by
  cases r
  cases t
  simp_all

/-- A field of a successful handler response, extracted from an
evaluation of the response through `Except.toOption`. -/
theorem ok_field {β : Type} (f : OptimizeResult → β)
    {e : Except OptimizeError OptimizeResult} {r : OptimizeResult} {b : β}
    (hE : e = .ok r) (h : e.toOption.map f = some b) : f r = b := by
  subst hE
  simpa [Except.toOption] using h

/-- Structural fact about the handler: a successful response carries the
pricing block computed from its own scrap-inflated global total. -/
theorem optimize_ok_pricing {items : List OrderLine} {W : ℚ}
    {r : OptimizeResult} (h : optimize items W = .ok r) :
    r.summary.pricing = computePricing r.summary.totalWithScrap := by
  unfold optimize at h
  split at h
  · exact Except.noConfusion h
  · injection h with h
    subst h
    rfl

/-- The default coil width of the handler, `43.875`. -/
def defaultCoilWidth : ℚ := 43875 / 1000

/-- Scenario A line: one Full-Width line, quantity 45, length 16,
width 43.875 (the Ag Panel of the sample data). -/
def sampleFullLine : OrderLine := ⟨"A4AG", "Ash Gray", 45, 16, 43875 / 1000⟩

/-- Scenario B line: one Nested line, quantity 15, length 10, width 14
(the Ridge Cap of the sample data). -/
def sampleNestedLine : OrderLine := ⟨"RIDGE-AG", "Ash Gray", 15, 10, 14⟩

/-- Scenario D, first color: a Full-Width line of 100 pre-scrap feet. -/
def scenarioDLineA : OrderLine := ⟨"P1", "ColorA", 10, 10, 50⟩

/-- Scenario D, second color: a Full-Width line of 100 pre-scrap feet. -/
def scenarioDLineB : OrderLine := ⟨"P2", "ColorB", 10, 10, 50⟩

/-- A line with a non-positive (zero) quantity, used to probe input
validation. -/
def zeroQuantityLine : OrderLine := ⟨"Z", "C", 0, 1, 50⟩

/-- A line with negative width which, against a negative coil width,
drives the Nested branch to piecesPerRow = 0. -/
def degenerateLine : OrderLine := ⟨"X", "C", 1, 1, -2⟩

/-- The color group the engine produces for Scenario A. -/
def sampleFullGroup : ColorResult :=
  { patterns := [.fullWidth "A4AG" 45 16 720]
    baseLinearFeet := 720
    scrapFeet := 36
    totalLinearFeet := 756
    coilsNeeded := 8
    materialEff := 20 / 21
    recommendedCoil := "CO4387529AG" }

/-- The full optimizer output for Scenario A. -/
def sampleFullResult : OptimizeResult :=
  { optimization := [("Ash Gray", sampleFullGroup)]
    summary :=
      { totalLinearFeet := 720
        scrapFeet := 36
        totalWithScrap := 756
        totalCoilsNeeded := 8
        coilWidth := 43875 / 1000
        pricing :=
          { materialCost := 14553 / 5
            laborCost := 378
            totalCost := 16443 / 5
            sellPrice := 213759 / 50
            margin := 49329 / 50 } } }

/-- The color group the engine produces for each Scenario D color
(up to the product name). -/
def scenarioDGroup (product : String) : ColorResult :=
  { patterns := [.fullWidth product 10 10 100]
    baseLinearFeet := 100
    scrapFeet := 5
    totalLinearFeet := 105
    coilsNeeded := 2
    materialEff := 20 / 21
    recommendedCoil := "CO4387529CUSTOM" }

/-- The full optimizer output for Scenario D. -/
def scenarioDResult : OptimizeResult :=
  { optimization :=
      [("ColorA", scenarioDGroup "P1"), ("ColorB", scenarioDGroup "P2")]
    summary :=
      { totalLinearFeet := 200
        scrapFeet := 10
        totalWithScrap := 210
        totalCoilsNeeded := 3
        coilWidth := 43875 / 1000
        pricing :=
          { materialCost := 1617 / 2
            laborCost := 105
            totalCost := 1827 / 2
            sellPrice := 23751 / 20
            margin := 5481 / 20 } } }

/-- The pricing block at a scrap-inflated total of 756 feet. -/
theorem computePricing756 :
    computePricing 756 =
      { materialCost := 14553 / 5, laborCost := 378, totalCost := 16443 / 5
        sellPrice := 213759 / 50, margin := 49329 / 50 } := by
  refine pricingExt ?_ ?_ ?_ ?_ ?_
  · show (756 : ℚ) * (385 / 100) = 14553 / 5
    norm_num
  · show (756 : ℚ) * (1 / 2) = 378
    norm_num
  · show (756 : ℚ) * (385 / 100) + 756 * (1 / 2) = 16443 / 5
    norm_num
  · show ((756 : ℚ) * (385 / 100) + 756 * (1 / 2)) * (1 + 30 / 100)
        = 213759 / 50
    norm_num
  · show ((756 : ℚ) * (385 / 100) + 756 * (1 / 2)) * (1 + 30 / 100)
        - ((756 : ℚ) * (385 / 100) + 756 * (1 / 2)) = 49329 / 50
    norm_num

/-- The pricing block at a scrap-inflated total of 210 feet. -/
theorem computePricing210 :
    computePricing 210 =
      { materialCost := 1617 / 2, laborCost := 105, totalCost := 1827 / 2
        sellPrice := 23751 / 20, margin := 5481 / 20 } := by
  refine pricingExt ?_ ?_ ?_ ?_ ?_
  · show (210 : ℚ) * (385 / 100) = 1617 / 2
    norm_num
  · show (210 : ℚ) * (1 / 2) = 105
    norm_num
  · show (210 : ℚ) * (385 / 100) + 210 * (1 / 2) = 1827 / 2
    norm_num
  · show ((210 : ℚ) * (385 / 100) + 210 * (1 / 2)) * (1 + 30 / 100)
        = 23751 / 20
    norm_num
  · show ((210 : ℚ) * (385 / 100) + 210 * (1 / 2)) * (1 + 30 / 100)
        - ((210 : ℚ) * (385 / 100) + 210 * (1 / 2)) = 5481 / 20
    norm_num

/-- Evaluation of the engine on Scenario A. -/
theorem optimize_sampleFull_eval :
    optimize [sampleFullLine] defaultCoilWidth = .ok sampleFullResult := by
  rcases hE : optimize [sampleFullLine] defaultCoilWidth with e | r
  · have hS : (optimize [sampleFullLine] defaultCoilWidth).toOption.isSome
        = true := rfl
    rw [hE] at hS
    simp [Except.toOption] at hS
  · have hopt : r.optimization = sampleFullResult.optimization :=
      ok_field OptimizeResult.optimization hE (by with_unfolding_all decide)
    have h1 : r.summary.totalLinearFeet = 720 :=
      ok_field (fun s => s.summary.totalLinearFeet) hE
        (by with_unfolding_all decide)
    have h2 : r.summary.scrapFeet = 36 :=
      ok_field (fun s => s.summary.scrapFeet) hE
        (by with_unfolding_all decide)
    have h3 : r.summary.totalWithScrap = 756 :=
      ok_field (fun s => s.summary.totalWithScrap) hE
        (by with_unfolding_all decide)
    have h4 : r.summary.totalCoilsNeeded = 8 :=
      ok_field (fun s => s.summary.totalCoilsNeeded) hE
        (by with_unfolding_all decide)
    have h5 : r.summary.coilWidth = 43875 / 1000 :=
      ok_field (fun s => s.summary.coilWidth) hE
        (by with_unfolding_all decide)
    have h6 : r.summary.pricing = computePricing 756 := by
      rw [optimize_ok_pricing hE, h3]
    exact congrArg Except.ok
      (optimizeResultExt hopt
        (summaryExt h1 h2 h3 h4 h5 (h6.trans computePricing756)))

/-- Evaluation of the engine on Scenario D. -/
theorem optimize_scenarioD_eval :
    optimize [scenarioDLineA, scenarioDLineB] defaultCoilWidth
      = .ok scenarioDResult := by
  rcases hE : optimize [scenarioDLineA, scenarioDLineB] defaultCoilWidth
    with e | r
  · have hS : (optimize [scenarioDLineA, scenarioDLineB]
        defaultCoilWidth).toOption.isSome = true := rfl
    rw [hE] at hS
    simp [Except.toOption] at hS
  · have hopt : r.optimization = scenarioDResult.optimization :=
      ok_field OptimizeResult.optimization hE (by with_unfolding_all decide)
    have h1 : r.summary.totalLinearFeet = 200 :=
      ok_field (fun s => s.summary.totalLinearFeet) hE
        (by with_unfolding_all decide)
    have h2 : r.summary.scrapFeet = 10 :=
      ok_field (fun s => s.summary.scrapFeet) hE
        (by with_unfolding_all decide)
    have h3 : r.summary.totalWithScrap = 210 :=
      ok_field (fun s => s.summary.totalWithScrap) hE
        (by with_unfolding_all decide)
    have h4 : r.summary.totalCoilsNeeded = 3 :=
      ok_field (fun s => s.summary.totalCoilsNeeded) hE
        (by with_unfolding_all decide)
    have h5 : r.summary.coilWidth = 43875 / 1000 :=
      ok_field (fun s => s.summary.coilWidth) hE
        (by with_unfolding_all decide)
    have h6 : r.summary.pricing = computePricing 210 := by
      rw [optimize_ok_pricing hE, h3]
    exact congrArg Except.ok
      (optimizeResultExt hopt
        (summaryExt h1 h2 h3 h4 h5 (h6.trans computePricing210)))

/-! ### Claims -/

/-- Claim C1: for every order line processed by optimize with coil width
W > 0, a line with width ≥ W is classified Full-Width with
totalFeet = quantity * length exactly, and a line with width < W is
classified Nested with piecesPerRow = floor(W / width),
rowsNeeded = ceil(quantity / piecesPerRow) and
totalFeet = rowsNeeded * length; in particular the Nested line
(quantity 15, length 10, width 14) at W = 43.875 yields piecesPerRow 3,
rowsNeeded 5 and totalFeet 50. -/
theorem c1_pattern_classification (item : OrderLine) (W : ℚ) (_hW : 0 < W) :
    (W ≤ item.width →
      makePattern W item =
        .fullWidth item.productId item.quantity item.length
          (item.quantity * item.length)) ∧
    (item.width < W →
      makePattern W item =
        .nested item.productId item.quantity item.width ⌊W / item.width⌋
          ⌈item.quantity / ((⌊W / item.width⌋ : ℤ) : ℚ)⌉ item.length
          (((⌈item.quantity / ((⌊W / item.width⌋ : ℤ) : ℚ)⌉ : ℤ) : ℚ)
            * item.length)
          (item.width * ((⌊W / item.width⌋ : ℤ) : ℚ) / W)) ∧
    makePattern defaultCoilWidth sampleNestedLine =
      .nested "RIDGE-AG" 15 14 3 5 10 50 (112 / 117) := by
  refine ⟨?_, ?_, by with_unfolding_all decide⟩
  · intro h
    unfold makePattern
    rw [if_pos h]
  · intro h
    unfold makePattern
    rw [if_neg (not_le.mpr h)]

/-- Witness for Claim C1 at the Scenario B line and the default coil
width. -/
theorem c1_pattern_classification_witness :
    (0 : ℚ) < defaultCoilWidth ∧
    makePattern defaultCoilWidth sampleNestedLine =
      .nested "RIDGE-AG" 15 14 3 5 10 50 (112 / 117) := by
  have hW : (0 : ℚ) < defaultCoilWidth := by with_unfolding_all decide
  exact ⟨hW,
    (c1_pattern_classification sampleNestedLine defaultCoilWidth hW).2.2⟩

/-- Claim C2: every color group produced by optimize has
baseLinearFeet = the sum of its pattern totalFeet values,
scrapFeet = baseLinearFeet * scrapFactor,
totalLinearFeet = baseLinearFeet + scrapFeet and
coilsNeeded = ceil(totalLinearFeet / standardRollLength); in particular
Scenario A produces one "Ash Gray" group with baseLinearFeet 720,
scrapFeet 36, totalLinearFeet 756 and coilsNeeded 8. -/
theorem c2_color_group_aggregation (items : List OrderLine) (W : ℚ)
    (r : OptimizeResult) (h : optimize items W = .ok r) :
    (∀ g ∈ r.optimization,
      g.2.baseLinearFeet = (g.2.patterns.map Pattern.totalFeet).sum ∧
      g.2.scrapFeet = g.2.baseLinearFeet * BUSINESS_CONFIG.scrapFactor ∧
      g.2.totalLinearFeet = g.2.baseLinearFeet + g.2.scrapFeet ∧
      g.2.coilsNeeded
        = ⌈g.2.totalLinearFeet / BUSINESS_CONFIG.standardRollLength⌉) ∧
    (optimize [sampleFullLine] defaultCoilWidth).toOption.map
        (fun s => s.optimization.map
          (fun g => (g.1, g.2.baseLinearFeet, g.2.scrapFeet,
                     g.2.totalLinearFeet, g.2.coilsNeeded)))
      = some [("Ash Gray", 720, 36, 756, 8)] := by
  constructor
  · intro g hg
    unfold optimize at h
    split at h
    · exact Except.noConfusion h
    · injection h with h
      subst h
      simp only [List.mem_map] at hg
      obtain ⟨g0, hg0, rfl⟩ := hg
      exact ⟨rfl, rfl, rfl, rfl⟩
  · with_unfolding_all decide

/-- Witness for Claim C2 at Scenario A. -/
theorem c2_color_group_aggregation_witness :
    ("Ash Gray", sampleFullGroup) ∈ sampleFullResult.optimization ∧
    sampleFullGroup.totalLinearFeet
      = sampleFullGroup.baseLinearFeet + sampleFullGroup.scrapFeet := by
  have h := c2_color_group_aggregation [sampleFullLine] defaultCoilWidth
      sampleFullResult optimize_sampleFull_eval
  have hmem : ("Ash Gray", sampleFullGroup) ∈ sampleFullResult.optimization :=
    List.mem_singleton.mpr rfl
  exact ⟨hmem, (h.1 ("Ash Gray", sampleFullGroup) hmem).2.2.1⟩

/-- Claim C3: the global summary sums per-group baseLinearFeet into
totalLinearFeet and per-group (scrap-inflated) totalLinearFeet into
totalWithScrap, reports scrapFeet = totalWithScrap - totalLinearFeet,
and hence satisfies totalWithScrap = totalLinearFeet + scrapFeet; in
particular Scenario D yields summary totals 200, 10 and 210. -/
theorem c3_summary_totals (items : List OrderLine) (W : ℚ)
    (r : OptimizeResult) (h : optimize items W = .ok r) :
    (r.summary.totalLinearFeet
        = (r.optimization.map (fun g => g.2.baseLinearFeet)).sum ∧
     r.summary.totalWithScrap
        = (r.optimization.map (fun g => g.2.totalLinearFeet)).sum ∧
     r.summary.scrapFeet
        = r.summary.totalWithScrap - r.summary.totalLinearFeet ∧
     r.summary.totalWithScrap
        = r.summary.totalLinearFeet + r.summary.scrapFeet) ∧
    (optimize [scenarioDLineA, scenarioDLineB] defaultCoilWidth).toOption.map
        (fun s => (s.summary.totalLinearFeet, s.summary.scrapFeet,
                   s.summary.totalWithScrap))
      = some (200, 10, 210) := by
  constructor
  · unfold optimize at h
    split at h
    · exact Except.noConfusion h
    · injection h with h
      subst h
      refine ⟨rfl, rfl, rfl, by ring⟩
  · with_unfolding_all decide

/-- Witness for Claim C3 at Scenario D. -/
theorem c3_summary_totals_witness :
    scenarioDResult.summary.totalWithScrap
      = scenarioDResult.summary.totalLinearFeet
        + scenarioDResult.summary.scrapFeet ∧
    scenarioDResult.summary.totalLinearFeet = 200 ∧
    scenarioDResult.summary.scrapFeet = 10 ∧
    scenarioDResult.summary.totalWithScrap = 210 :=
  ⟨(c3_summary_totals [scenarioDLineA, scenarioDLineB] defaultCoilWidth
      scenarioDResult optimize_scenarioD_eval).1.2.2.2, rfl, rfl, rfl⟩

/-- Claim C4: pricing is computed once, globally, as a function of the
scrap-inflated total alone, with
materialCost = totalWithScrap * materialCostPerFoot,
laborCost = totalWithScrap * laborCostPerFoot,
totalCost = materialCost + laborCost,
sellPrice = totalCost * (1 + marginPercent) and
margin = sellPrice - totalCost. -/
theorem c4_global_pricing (items : List OrderLine) (W : ℚ)
    (r : OptimizeResult) (h : optimize items W = .ok r) :
    r.summary.pricing = computePricing r.summary.totalWithScrap ∧
    r.summary.pricing.materialCost
      = r.summary.totalWithScrap * (385 / 100) ∧
    r.summary.pricing.laborCost
      = r.summary.totalWithScrap * BUSINESS_CONFIG.pricing.laborPerFoot ∧
    r.summary.pricing.totalCost
      = r.summary.pricing.materialCost + r.summary.pricing.laborCost ∧
    r.summary.pricing.sellPrice
      = r.summary.pricing.totalCost
        * (1 + BUSINESS_CONFIG.pricing.marginPercent) ∧
    r.summary.pricing.margin
      = r.summary.pricing.sellPrice - r.summary.pricing.totalCost := by
  unfold optimize at h
  split at h
  · exact Except.noConfusion h
  · injection h with h
    subst h
    exact ⟨rfl, rfl, rfl, rfl, rfl, rfl⟩

/-- Witness for Claim C4 at Scenario A. -/
theorem c4_global_pricing_witness :
    sampleFullResult.summary.pricing
      = computePricing sampleFullResult.summary.totalWithScrap ∧
    sampleFullResult.summary.pricing.margin
      = sampleFullResult.summary.pricing.sellPrice
        - sampleFullResult.summary.pricing.totalCost :=
  ⟨(c4_global_pricing [sampleFullLine] defaultCoilWidth sampleFullResult
      optimize_sampleFull_eval).1,
   (c4_global_pricing [sampleFullLine] defaultCoilWidth sampleFullResult
      optimize_sampleFull_eval).2.2.2.2.2⟩

/-- Claim C5 counterexample: the handler does not reject non-positive
per-line values or a non-positive coil width: a line with quantity 0,
and a valid line against coil width -1, both produce a result instead
of an InvalidInput error. -/
theorem c5_counterexample :
    (optimize [zeroQuantityLine] defaultCoilWidth).toOption.isSome = true ∧
    (optimize [scenarioDLineA] (-1)).toOption.isSome = true := by
  constructor
  · with_unfolding_all decide
  · with_unfolding_all decide

/-- Claim C5 (amended): the handler rejects exactly the empty order-line
list with an InvalidInput error before any computation, producing no
result; it performs no validation of per-line quantity, length or width
nor of the coil width. -/
theorem c5_empty_input_validation (items : List OrderLine) (W : ℚ) :
    (optimize items W = .error .invalidInput ↔ items = []) ∧
    optimize ([] : List OrderLine) W = .error .invalidInput := by
  refine ⟨⟨?_, ?_⟩, rfl⟩
  · intro h
    unfold optimize at h
    split at h
    · next hemp => exact List.isEmpty_iff.mp hemp
    · exact Except.noConfusion h
  · intro h
    subst h
    rfl

/-- Claim C6: every line classified Nested (positive width strictly
below the coil width) gets a pattern with
piecesPerRow * width ≤ coilWidth and with rowsNeeded equal to
ceil(quantity / piecesPerRow) exactly. -/
theorem c6_nested_packing (item : OrderLine) (W : ℚ)
    (hw : 0 < item.width) (hlt : item.width < W) :
    (makePattern W item).piecesPerRowOf = some ⌊W / item.width⌋ ∧
    ((⌊W / item.width⌋ : ℤ) : ℚ) * item.width ≤ W ∧
    (makePattern W item).rowsNeededOf
      = some ⌈item.quantity / ((⌊W / item.width⌋ : ℤ) : ℚ)⌉ := by
  have hne : item.width ≠ 0 := ne_of_gt hw
  refine ⟨?_, ?_, ?_⟩
  · unfold makePattern
    rw [if_neg (not_le.mpr hlt)]
    rfl
  · calc ((⌊W / item.width⌋ : ℤ) : ℚ) * item.width
        ≤ (W / item.width) * item.width :=
          mul_le_mul_of_nonneg_right (Int.floor_le _) hw.le
      _ = W := div_mul_cancel₀ W hne
  · unfold makePattern
    rw [if_neg (not_le.mpr hlt)]
    rfl

/-- Witness for Claim C6 at the Scenario B line: 3 pieces of width 14
per row fit in the 43.875 coil, and 15 pieces need 5 rows. -/
theorem c6_nested_packing_witness :
    (0 : ℚ) < sampleNestedLine.width ∧
    sampleNestedLine.width < defaultCoilWidth ∧
    ((3 : ℤ) : ℚ) * sampleNestedLine.width ≤ defaultCoilWidth ∧
    (makePattern defaultCoilWidth sampleNestedLine).rowsNeededOf = some 5 := by
  have hw : (0 : ℚ) < sampleNestedLine.width := by with_unfolding_all decide
  have hlt : sampleNestedLine.width < defaultCoilWidth := by
    with_unfolding_all decide
  have h := c6_nested_packing sampleNestedLine defaultCoilWidth hw hlt
  have hfl : ⌊defaultCoilWidth / sampleNestedLine.width⌋ = (3 : ℤ) := by
    with_unfolding_all decide
  refine ⟨hw, hlt, ?_, ?_⟩
  · have hle := h.2.1
    rw [hfl] at hle
    exact hle
  · have hrows := h.2.2
    rw [hfl] at hrows
    rw [hrows]
    have : ⌈sampleNestedLine.quantity / ((3 : ℤ) : ℚ)⌉ = (5 : ℤ) := by
      with_unfolding_all decide
    rw [this]

/-- Claim C7 counterexample: the engine performs no DegenerateGeometry
check: against coil width -1, the line of width -2 is classified Nested
with piecesPerRow 0, yet the handler still returns an ordinary result
instead of signalling any error. -/
theorem c7_counterexample :
    (makePattern (-1) degenerateLine).piecesPerRowOf = some 0 ∧
    (optimize [degenerateLine] (-1)).toOption.isSome = true := by
  constructor
  · with_unfolding_all decide
  · rfl

/-- Claim C7 (amended): the code contains no DegenerateGeometry check
and a Nested pattern with piecesPerRow 0 flows into the rowsNeeded
arithmetic with an ordinary result returned; however, for every line
with positive width classified Nested (width < coil width), the
computed piecesPerRow is at least 1, so the degenerate value cannot
arise from valid inputs. -/
theorem c7_no_degenerate_for_valid_inputs (item : OrderLine) (W : ℚ)
    (hw : 0 < item.width) (hlt : item.width < W) :
    ∀ p : ℤ, (makePattern W item).piecesPerRowOf = some p → 1 ≤ p := by
  intro p hp
  have hmk : (makePattern W item).piecesPerRowOf = some ⌊W / item.width⌋ := by
    unfold makePattern
    rw [if_neg (not_le.mpr hlt)]
    rfl
  rw [hmk] at hp
  obtain rfl := (Option.some.inj hp).symm
  have h1 : (1 : ℚ) ≤ W / item.width := (one_le_div hw).mpr hlt.le
  exact Int.le_floor.mpr (by exact_mod_cast h1)

/-- Witness for Claim C7 (amended) at the Scenario B line. -/
theorem c7_no_degenerate_for_valid_inputs_witness :
    (makePattern defaultCoilWidth sampleNestedLine).piecesPerRowOf
      = some 3 ∧ (1 : ℤ) ≤ 3 := by
  have h3 : (makePattern defaultCoilWidth sampleNestedLine).piecesPerRowOf
      = some 3 := by
    with_unfolding_all decide
  exact ⟨h3, c7_no_degenerate_for_valid_inputs sampleNestedLine
    defaultCoilWidth (by with_unfolding_all decide)
    (by with_unfolding_all decide) 3 h3⟩

/-- Claim C8: the engine is deterministic: two invocations on equal
order lines and equal coil widths produce equal responses. -/
theorem c8_deterministic (items₁ items₂ : List OrderLine) (W₁ W₂ : ℚ)
    (hitems : items₁ = items₂) (hW : W₁ = W₂) :
    optimize items₁ W₁ = optimize items₂ W₂ := by
  subst hitems
  subst hW
  rfl

/-- Witness for Claim C8 on the sample data. -/
theorem c8_deterministic_witness :
    optimize [sampleFullLine, sampleNestedLine] defaultCoilWidth
      = optimize [sampleFullLine, sampleNestedLine] defaultCoilWidth :=
  c8_deterministic [sampleFullLine, sampleNestedLine]
    [sampleFullLine, sampleNestedLine] defaultCoilWidth defaultCoilWidth
    rfl rfl

/-- Claim C9: the resolved coil product is the concatenation of the
width-derived stem, the fixed gauge literal "29" and the color code,
where the code is the table key whose color name matches the input
case-insensitively and is "CUSTOM" when no entry matches. -/
theorem c9_coil_product_resolution (color : String) (w : ℚ) :
    selectCoilProduct color w
      = (if w = 20 then "CO20" else "CO43875") ++ "29"
        ++ getColorCode color ∧
    (colorTable.find? (fun p => p.2.toLower = color.toLower) = none →
      getColorCode color = "CUSTOM") ∧
    (∀ code name,
      colorTable.find? (fun p => p.2.toLower = color.toLower)
        = some (code, name) →
      getColorCode color = code ∧ (code, name) ∈ colorTable ∧
        name.toLower = color.toLower) ∧
    selectCoilProduct "ash gray" defaultCoilWidth = "CO4387529AG" ∧
    selectCoilProduct "Mauve" 20 = "CO2029CUSTOM" := by
  refine ⟨rfl, ?_, ?_, ?_, ?_⟩
  · intro h
    unfold getColorCode
    rw [h]
  · intro code name h
    refine ⟨?_, List.mem_of_find?_eq_some h, ?_⟩
    · unfold getColorCode
      rw [h]
    · have hp := List.find?_some h
      simpa using hp
  · with_unfolding_all decide
  · with_unfolding_all decide

/-- Witness for Claim C9: composition at width 20, a case-insensitive
hit and a miss of the color table. -/
theorem c9_coil_product_resolution_witness :
    selectCoilProduct "ash gray" 20
      = "CO20" ++ "29" ++ getColorCode "ash gray" ∧
    getColorCode "ash gray" = "AG" ∧
    getColorCode "Tangerine" = "CUSTOM" := by
  refine ⟨?_, ?_, ?_⟩
  · have h := (c9_coil_product_resolution "ash gray" 20).1
    rw [h]
    rw [if_pos rfl]
  · exact ((c9_coil_product_resolution "ash gray" 20).2.2.1 "AG" "Ash Gray"
      (by with_unfolding_all decide)).1
  · exact (c9_coil_product_resolution "Tangerine" 20).2.1
      (by with_unfolding_all decide)

/-- Claim C10: every color group with positive baseLinearFeet has
numeric material efficiency baseLinearFeet / (scrap-inflated total)
equal to the constant 1 / (1 + scrapFactor) = 20/21, independent of the
order lines. -/
theorem c10_constant_material_efficiency (W : ℚ) (color : String)
    (colorItems : List OrderLine)
    (hpos : 0 < (optimizeColor W color colorItems).baseLinearFeet) :
    (optimizeColor W color colorItems).materialEff
      = 1 / (1 + BUSINESS_CONFIG.scrapFactor) ∧
    (optimizeColor W color colorItems).materialEff = 20 / 21 := by
  have hkey : ∀ b : ℚ, 0 < b → b / (b + b * (5 / 100)) = 20 / 21 := by
    intro b hb
    have h2 : (0 : ℚ) < b + b * (5 / 100) := by linarith
    rw [div_eq_iff (ne_of_gt h2)]
    ring
  have hbase : (optimizeColor W color colorItems).baseLinearFeet
      = ((colorItems.map (makePattern W)).map Pattern.totalFeet).sum := rfl
  have heff : (optimizeColor W color colorItems).materialEff
      = ((colorItems.map (makePattern W)).map Pattern.totalFeet).sum
        / (((colorItems.map (makePattern W)).map Pattern.totalFeet).sum
           + ((colorItems.map (makePattern W)).map Pattern.totalFeet).sum
             * (5 / 100)) := rfl
  rw [hbase] at hpos
  constructor
  · rw [heff, hkey _ hpos]
    norm_num [BUSINESS_CONFIG]
  · rw [heff]
    exact hkey _ hpos

/-- Witness for Claim C10 at the Scenario A group. -/
theorem c10_constant_material_efficiency_witness :
    0 < (optimizeColor defaultCoilWidth "Ash Gray"
          [sampleFullLine]).baseLinearFeet ∧
    (optimizeColor defaultCoilWidth "Ash Gray"
      [sampleFullLine]).materialEff = 20 / 21 := by
  have hpos : 0 < (optimizeColor defaultCoilWidth "Ash Gray"
      [sampleFullLine]).baseLinearFeet := by
    with_unfolding_all decide
  exact ⟨hpos, (c10_constant_material_efficiency defaultCoilWidth
    "Ash Gray" [sampleFullLine] hpos).2⟩

end ProCoil
